import Mathlib

/-
Verification of the atlantica2 battle-simulation core.

Shallow embedding conventions:
- Python floats are modelled as rationals (ℚ); Python ints as ℤ or ℕ.
- Python dicts that preserve insertion order are modelled as association
  lists (List (key × value)).
- Fallible Python code (raising exceptions) is modelled with Except PyError.
-/

namespace Atlantica

/-- Python exception kinds raised by the embedded code. -/
inductive PyError where
  | typeError
  | keyError (key : String)
  | attributeError (name : String)
  | zeroDivisionError
  | valueError
deriving DecidableEq, Repr

/- ============================================================
   formulas/stats.py
   ============================================================ -/

/-- Splits a character list on the dot character (kernel-reducible helper
for the tag normalization). -/
def splitOnDotAux : List Char → List Char → List (List Char)
  | [], acc => [acc.reverse]
  | c :: rest, acc =>
      if c = '.' then acc.reverse :: splitOnDotAux rest []
      else splitOnDotAux rest (c :: acc)

/-- Embeds `_norm_tag` (formulas/stats.py): lowercase the tag and, when it
contains a dot (enum repr such as "ModTag.INC"), keep the part after the
last dot. -/
def normTag (tag : String) : String :=
  let chars := tag.data.map Char.toLower
  if chars.contains '.' then String.mk ((splitOnDotAux chars []).getLastD chars)
  else String.mk chars

/-- A modifier line as normalized by `_iter_mod_tuples` (formulas/stats.py):
every supported modifier shape (object, dict, tuple) is turned into a
(stat, tag, value) triple. -/
structure Mod3 where
  stat : String
  tag : String
  value : ℚ
deriving DecidableEq, Repr

/-- Accumulator of the evaluation loop in `evaluate_stat`. -/
structure EvalAcc where
  base_add : ℚ
  inc_sum : ℚ
  more_mul : ℚ
  less_mul : ℚ
deriving DecidableEq, Repr

/-- One iteration of the modifier loop in `evaluate_stat` (formulas/stats.py
lines 60-75): skip non-matching stat keys, accumulate base/inc sums and
more/less products, normalize a positive "less" value to its negation,
ignore unknown tags. -/
def evalStep (stat_key : String) (acc : EvalAcc) (m : Mod3) : EvalAcc :=
  if m.stat ≠ stat_key then acc
  else
    let t := normTag m.tag
    if t = "base" then { acc with base_add := acc.base_add + m.value }
    else if t = "inc" then { acc with inc_sum := acc.inc_sum + m.value }
    else if t = "more" then { acc with more_mul := acc.more_mul * (1 + m.value / 100) }
    else if t = "less" then
      let vv := if m.value ≤ 0 then m.value else -m.value
      { acc with less_mul := acc.less_mul * (1 + vv / 100) }
    else acc

/-- Embeds the clamping tail of `evaluate_stat`: `max(clamp_min, out)` when a
lower clamp is given, then `min(clamp_max, out)` when an upper clamp is
given. -/
def pyClamp (clamp_min clamp_max : Option ℚ) (x : ℚ) : ℚ :=
  let y := match clamp_min with
    | some a => max a x
    | none => x
  match clamp_max with
  | some b => min b y
  | none => y

/-- Embeds `evaluate_stat` (formulas/stats.py lines 39-83):
(base + Σ base mods) * (1 + Σ inc mods / 100) * Π(1 + more/100) *
Π(1 + less/100) with "less" normalized to be non-positive, then clamped. -/
def evaluate_stat (stat_key : String) (base_value : ℚ) (mods : List Mod3)
    (clamp_min clamp_max : Option ℚ) : ℚ :=
  let acc := mods.foldl (evalStep stat_key) ⟨0, 0, 1, 1⟩
  let out := (base_value + acc.base_add) * (1 + acc.inc_sum / 100) * acc.more_mul * acc.less_mul
  pyClamp clamp_min clamp_max out

/-- Values of the modifiers that match a stat key and (normalized) tag;
used to state the specification formula. -/
def matchingValues (stat_key tg : String) (mods : List Mod3) : List ℚ :=
  (mods.filter (fun m => m.stat = stat_key ∧ normTag m.tag = tg)).map (fun m => m.value)

/-- The stat formula exactly as the specification words it:
(baseValue + Σ matching base) × (1 + Σ matching inc / 100) ×
Π(1 + more/100) × Π(1 + v/100) over "less" values v normalized to ≤ 0. -/
def specStatFormula (stat_key : String) (base_value : ℚ) (mods : List Mod3) : ℚ :=
  (base_value + (matchingValues stat_key "base" mods).sum)
    * (1 + (matchingValues stat_key "inc" mods).sum / 100)
    * ((matchingValues stat_key "more" mods).map (fun v => 1 + v / 100)).prod
    * ((matchingValues stat_key "less" mods).map
        (fun v => 1 + (if v ≤ 0 then v else -v) / 100)).prod

theorem evalLoop_characterization (stat_key : String) :
    ∀ (mods : List Mod3) (acc : EvalAcc),
      mods.foldl (evalStep stat_key) acc =
        ⟨acc.base_add + (matchingValues stat_key "base" mods).sum,
         acc.inc_sum + (matchingValues stat_key "inc" mods).sum,
         acc.more_mul * ((matchingValues stat_key "more" mods).map (fun v => 1 + v / 100)).prod,
         acc.less_mul * ((matchingValues stat_key "less" mods).map
            (fun v => 1 + (if v ≤ 0 then v else -v) / 100)).prod⟩ := by
  intro mods
  induction mods with
  | nil => intro acc; simp [matchingValues]
  | cons m rest ih =>
    intro acc
    by_cases hstat : m.stat = stat_key
    · by_cases hb : normTag m.tag = "base"
      · simp only [List.foldl, evalStep, hstat, hb, ih, matchingValues, List.filter]
        simp
        ring
      · by_cases hi : normTag m.tag = "inc"
        · simp only [List.foldl, evalStep, hstat, hb, hi, ih, matchingValues, List.filter]
          simp
          ring
        · by_cases hm : normTag m.tag = "more"
          · simp only [List.foldl, evalStep, hstat, hb, hi, hm, ih, matchingValues, List.filter]
            simp
            ring
          · by_cases hl : normTag m.tag = "less"
            · simp only [List.foldl, evalStep, hstat, hb, hi, hm, hl, ih, matchingValues,
                List.filter]
              simp
              ring
            · simp [List.foldl, evalStep, hstat, hb, hi, hm, hl, ih, matchingValues, List.filter]
    · simp [List.foldl, evalStep, hstat, ih, matchingValues, List.filter]

/-- C2: for every stat key, base value and finite list of modifiers,
`evaluate_stat` equals the spec formula
(base + Σ base) × (1 + Σ inc/100) × Π(1 + more/100) × Π(1 + less/100)
with positive "less" inputs normalized to their negation, clamped to the
given bounds; and when no modifier matches the stat key the result is the
clamped base value. -/
theorem c2_evaluate_stat_formula (stat_key : String) (base_value : ℚ)
    (mods : List Mod3) (clamp_min clamp_max : Option ℚ) :
    evaluate_stat stat_key base_value mods clamp_min clamp_max
      = pyClamp clamp_min clamp_max (specStatFormula stat_key base_value mods)
    ∧ ((∀ m ∈ mods, m.stat ≠ stat_key) →
        evaluate_stat stat_key base_value mods clamp_min clamp_max
          = pyClamp clamp_min clamp_max base_value) := by
  have hmain : evaluate_stat stat_key base_value mods clamp_min clamp_max
      = pyClamp clamp_min clamp_max (specStatFormula stat_key base_value mods) := by
    unfold evaluate_stat specStatFormula
    rw [evalLoop_characterization]
    norm_num
  refine ⟨hmain, fun hnone => ?_⟩
  have hempty : ∀ tg : String, matchingValues stat_key tg mods = [] := by
    intro tg
    unfold matchingValues
    rw [List.filter_eq_nil_iff.mpr, List.map_nil]
    intro m hm
    simp only [decide_eq_true_eq, not_and]
    intro hstat
    exact absurd hstat (hnone m hm)
  rw [hmain]
  unfold specStatFormula
  rw [hempty "base", hempty "inc", hempty "more", hempty "less"]
  norm_num

/-- Witness for C2 at a concrete input: a +20 base modifier and a "less 20"
modifier on attack with base 100 give (100 + 20) × 0.8 = 96. -/
theorem c2_evaluate_stat_formula_witness :
    evaluate_stat "attack" 100 [⟨"attack", "base", 20⟩, ⟨"attack", "less", 20⟩] none none = 96 := by
  have h := (c2_evaluate_stat_formula "attack" 100
    [⟨"attack", "base", 20⟩, ⟨"attack", "less", 20⟩] none none).1
  rw [h]
  have hb : normTag "base" = "base" := by decide
  have hl : normTag "less" = "less" := by decide
  simp [pyClamp, specStatFormula, matchingValues, hb, hl, List.filter]
  norm_num

/- ============================================================
   formulas/multihit.py
   ============================================================ -/

/-- Embeds `roll_extra_hits` (formulas/multihit.py lines 12-27); the single
uniform draw `rng.roll()` in [0,1) is passed in as `r`. -/
def roll_extra_hits (total_mhr r : ℚ) : ℤ :=
  let x := total_mhr / 100
  if x ≤ 0 then 0
  else
    let n : ℤ := ⌊x⌋
    let f := x - n
    if r < f then n + 1 else n

/-- C7: with x = rate/100, `roll_extra_hits` returns 0 when x ≤ 0; otherwise
with n = floor x and f = x − n it returns n+1 when the uniform draw r
satisfies r < f and n otherwise. -/
theorem c7_roll_extra_hits_spec (total_mhr r : ℚ) :
    (total_mhr / 100 ≤ 0 → roll_extra_hits total_mhr r = 0)
    ∧ (0 < total_mhr / 100 →
        roll_extra_hits total_mhr r =
          ⌊total_mhr / 100⌋ +
            (if r < total_mhr / 100 - ⌊total_mhr / 100⌋ then 1 else 0)) := by
  constructor
  · intro h
    simp [roll_extra_hits, h]
  · intro h
    have hne : ¬ total_mhr / 100 ≤ 0 := not_le.mpr h
    simp only [roll_extra_hits, hne, if_false]
    split <;> simp

/-- Witness for C7 at a concrete input: rate 250 gives x = 2.5, n = 2,
f = 0.5, and a draw of 0.4 < 0.5 yields 3 extra hits. -/
theorem c7_roll_extra_hits_spec_witness : roll_extra_hits 250 (2/5) = 3 := by
  have h := (c7_roll_extra_hits_spec 250 (2/5)).2 (by norm_num)
  rw [h]
  norm_num

/- ============================================================
   formulas/damage.py
   ============================================================ -/

/-- Embeds `base_mitigation` (formulas/damage.py lines 7-19): 0 for
defense ≤ 0, else defense/(defense+k) clamped into [0, 0.95]. Division by
zero (defense + k = 0) raises ZeroDivisionError in Python. -/
def base_mitigation (defense k : ℚ) : Except PyError ℚ :=
  if defense ≤ 0 then .ok 0
  else if defense + k = 0 then .error .zeroDivisionError
  else
    let m := defense / (defense + k)
    let m := if m < 0 then 0 else m
    let m := if m > 95/100 then 95/100 else m
    .ok m

/-- Embeds `apply_mitigation` (formulas/damage.py lines 22-28): returns 0
when raw damage ≤ 0, else raw × (1 − mitigation). -/
def apply_mitigation (raw_damage mitigation : ℚ) : ℚ :=
  if raw_damage ≤ 0 then 0 else raw_damage * (1 - mitigation)

/-- C8 counterexample: the claim says apply_mitigation returns
raw × (1 − mitigation) for every raw damage value, but at raw = −1 and
mitigation = 0 the code returns 0 while the formula gives −1; moreover
base_mitigation raises ZeroDivisionError at defense = 1, K = −1 instead of
returning a clamped value. -/
theorem c8_apply_mitigation_counterexample :
    apply_mitigation (-1) 0 = 0
    ∧ ((-1 : ℚ) * (1 - 0) = -1 ∧ (0 : ℚ) ≠ -1)
    ∧ base_mitigation 1 (-1) = .error .zeroDivisionError := by
  refine ⟨by norm_num [apply_mitigation], ⟨by norm_num, by norm_num⟩, ?_⟩
  norm_num [base_mitigation]

/-- C8 amended: base_mitigation returns 0 when defense ≤ 0; for defense > 0
it returns defense/(defense+K) clamped to [0, 0.95] provided defense+K ≠ 0
(and raises ZeroDivisionError when defense+K = 0); apply_mitigation
returns raw × (1 − mitigation) for raw damage > 0 and 0 for raw ≤ 0. -/
theorem c8_mitigation_amended (defense k raw m : ℚ) :
    (defense ≤ 0 → base_mitigation defense k = .ok 0)
    ∧ (0 < defense → defense + k ≠ 0 →
        base_mitigation defense k = .ok (min (95/100) (max 0 (defense / (defense + k)))))
    ∧ (raw ≤ 0 → apply_mitigation raw m = 0)
    ∧ (0 < raw → apply_mitigation raw m = raw * (1 - m)) := by
  refine ⟨fun h => by simp [base_mitigation, h], fun hpos hne => ?_, fun h => by simp [apply_mitigation, h], fun h => by simp [apply_mitigation, not_le.mpr h]⟩
  have hnle : ¬ defense ≤ 0 := not_le.mpr hpos
  simp only [base_mitigation, hnle, if_false, hne, if_false]
  congr 1
  rcases lt_or_le (defense / (defense + k)) 0 with hlt | hge
  · have h1 : max (0 : ℚ) (defense / (defense + k)) = 0 := max_eq_left hlt.le
    simp [hlt, h1]
    norm_num
  · have h1 : max (0 : ℚ) (defense / (defense + k)) = defense / (defense + k) :=
      max_eq_right hge
    rw [h1]
    have hnlt : ¬ defense / (defense + k) < 0 := not_lt.mpr hge
    simp only [hnlt, if_false]
    rcases le_or_lt (defense / (defense + k)) (95/100) with hle | hgt
    · simp [not_lt.mpr hle, min_eq_right hle]
    · simp [hgt, min_eq_left hgt.le]

/-- Witness for C8 amended at concrete inputs: defense 100 with K 4000
mitigates 100/4100, and 10 raw damage at 50 percent mitigation is 5. -/
theorem c8_mitigation_amended_witness :
    base_mitigation 100 4000 = .ok (min (95/100) (max 0 (100 / (100 + 4000))))
    ∧ apply_mitigation 10 (1/2) = 10 * (1 - 1/2) := by
  refine ⟨(c8_mitigation_amended 100 4000 10 (1/2)).2.1 (by norm_num) (by norm_num), ?_⟩
  exact (c8_mitigation_amended 100 4000 10 (1/2)).2.2.2 (by norm_num)

/- ============================================================
   data/status_effects.py
   ============================================================ -/

/-- Embeds `StatusKind` (data/status_effects.py). -/
inductive StatusKind5 where
  | buff
  | debuff
  | control
  | dot
  | special
deriving DecidableEq, Repr

/-- Embeds `StatusDef` (data/status_effects.py) with the fields the rules
consume (tick_timing and description are never read by the embedded
code paths). -/
structure StatusDef5 where
  key : String
  kind : StatusKind5
  is_positive : Bool
  stackable : Bool
  max_stacks : ℤ
  refresh_on_reapply : Bool
  default_duration : ℤ
  params : List (String × ℚ)
deriving DecidableEq, Repr

/-- Catalog entry with the dataclass defaults: not stackable, max 1 stack,
refresh on reapply. -/
def mkStatusDef (key : String) (kind : StatusKind5) (is_positive : Bool)
    (default_duration : ℤ) (params : List (String × ℚ)) : StatusDef5 :=
  ⟨key, kind, is_positive, false, 1, true, default_duration, params⟩

/-- Embeds the `STATUS` catalog (data/status_effects.py lines 69-228) in its
insertion order. -/
def STATUS : List (String × StatusDef5) :=
  [("immunity", mkStatusDef "immunity" .buff true 4 []),
   ("silence", mkStatusDef "silence" .debuff false 1 []),
   ("disarm", mkStatusDef "disarm" .debuff false 1 []),
   ("break", mkStatusDef "break" .debuff false 1 []),
   ("panic", mkStatusDef "panic" .debuff false 1 [("skill_damage_less_pct", 0)]),
   ("weaken", mkStatusDef "weaken" .debuff false 1 [("attack_damage_less_pct", 0)]),
   ("slow", mkStatusDef "slow" .debuff false 1 [("ap_base_delta", 0)]),
   ("bleeding", mkStatusDef "bleeding" .dot false 1 [("dot_ratio_of_last_triggered_hit", 3/10)]),
   ("shred", mkStatusDef "shred" .debuff false 1 [("armour_base_delta", 0)]),
   ("sunder", mkStatusDef "sunder" .debuff false 1 [("mr_base_delta", 0)]),
   ("immobilized", mkStatusDef "immobilized" .control false 1 []),
   ("stun", mkStatusDef "stun" .control false 1 []),
   ("dull", mkStatusDef "dull" .debuff false 1 [("accuracy_inc_pct", 0)]),
   ("brand", mkStatusDef "brand" .debuff false 1 [("damage_taken_more_pct", 0)]),
   ("chill", mkStatusDef "chill" .debuff false 1 [("ap_base_delta", -5), ("mhr_base_delta", -10)]),
   ("deliberate", mkStatusDef "deliberate" .buff true 1 [("neglect_chance_base_delta", 0)])]

/-- Embeds `get_status` (data/status_effects.py lines 231-234): raises
KeyError for a key outside the catalog. -/
def get_status (key : String) : Except PyError StatusDef5 :=
  match STATUS.lookup key with
  | some sd => .ok sd
  | none => .error (.keyError key)

/- ============================================================
   rules/status_pipeline.py
   ============================================================ -/

/-- Embeds `StatusInstance` (rules/status_pipeline.py lines 16-22); the
parameter bag holds the numeric parameters used by the pipeline. The
source field `stacks` is called `num_stacks` here because `stacks` is a
reserved token in this Lean environment. -/
structure StatusInstance5 where
  key : String
  remaining : ℤ
  num_stacks : ℤ
  params : List (String × ℚ)
  source_uid : Option String
deriving DecidableEq, Repr

/-- The normalized per-unit status container (`unit.statuses` after
`_ensure_status_map`): an insertion-ordered map from key to instance. -/
abbrev StatusMap : Type := List (String × StatusInstance5)

/-- Embeds `has_status` (rules/status_pipeline.py lines 131-134). -/
def has_status (sm : StatusMap) (key : String) : Bool :=
  match sm.lookup key with
  | some inst => decide (0 < inst.remaining)
  | none => false

/-- Python `dict.update`: existing keys are overwritten in place, new keys
are appended in the order of the update argument. -/
def dictUpdate (old upd : List (String × ℚ)) : List (String × ℚ) :=
  old.map (fun p => match upd.lookup p.1 with
    | some v => (p.1, v)
    | none => p)
  ++ upd.filter (fun q => decide (¬ (old.map (fun p => p.1)).contains q.1))

/-- Python `sm[key] = inst` on an insertion-ordered dict: overwrite in place
when the key exists, append otherwise. -/
def alSet (sm : StatusMap) (key : String) (inst : StatusInstance5) : StatusMap :=
  if (sm.map (fun p => p.1)).contains key then
    sm.map (fun p => if p.1 = key then (key, inst) else p)
  else sm ++ [(key, inst)]

/-- Embeds `apply_status` (rules/status_pipeline.py lines 141-190): catalog
lookup, immunity gate for non-beneficial statuses, creation with default
or clamped duration, and stacking/refresh/merge rules on reapply. -/
def apply_status (sm : StatusMap) (key : String) (duration : Option ℤ)
    (stacks_add : ℤ) (params : Option (List (String × ℚ)))
    (source_uid : Option String) : Except PyError (Bool × StatusMap) := do
  let sd ← get_status key
  if has_status sm "immunity" = true ∧ sd.is_positive = false then
    return (false, sm)
  else
    let dur0 := duration.getD sd.default_duration
    let dur := if dur0 < 0 then 0 else dur0
    match sm.lookup key with
    | none =>
        let ns : ℤ := if sd.stackable then max 1 (min sd.max_stacks stacks_add) else 1
        return (true, sm ++ [(key, ⟨key, dur, ns, params.getD [], source_uid⟩)])
    | some existing =>
        let ns := if sd.stackable then
            max 1 (min sd.max_stacks (existing.num_stacks + stacks_add))
          else existing.num_stacks
        let rem := if sd.refresh_on_reapply then max existing.remaining dur
          else existing.remaining
        let ps := match params with
          | some p => if p.isEmpty then existing.params else dictUpdate existing.params p
          | none => existing.params
        let src := match source_uid with
          | some s => some s
          | none => existing.source_uid
        return (true, alSet sm key ⟨key, rem, ns, ps, src⟩)

/-- C5: when a unit has an active immunity status, applying any
non-beneficial status returns False and leaves the status map unchanged:
no instance is created and no existing instance is modified. -/
theorem c5_immunity_blocks_apply (sm : StatusMap) (key : String)
    (duration : Option ℤ) (stacks_add : ℤ) (params : Option (List (String × ℚ)))
    (source_uid : Option String) (sd : StatusDef5)
    (hImm : has_status sm "immunity" = true)
    (hLk : STATUS.lookup key = some sd)
    (hPos : sd.is_positive = false) :
    apply_status sm key duration stacks_add params source_uid = .ok (false, sm) := by
  simp [apply_status, get_status, hLk, hImm, hPos, Bind.bind, Except.bind, pure, Except.pure]

/-- Witness for C5 at a concrete input: a unit with 2 turns of immunity
rejects "stun" and keeps its status map as it was. -/
theorem c5_immunity_blocks_apply_witness :
    apply_status [("immunity", ⟨"immunity", 2, 1, [], none⟩)] "stun" none 1 none none
      = .ok (false, [("immunity", ⟨"immunity", 2, 1, [], none⟩)]) := by
  exact c5_immunity_blocks_apply _ "stun" none 1 none none
    (mkStatusDef "stun" .control false 1 []) (by decide) (by decide) (by decide)

/-- Embeds the `PRIORITY` list (rules/status_pipeline.py lines 201-216). -/
def PRIORITY : List String :=
  ["stun", "immobilized", "silence", "disarm", "break", "panic", "weaken",
   "brand", "dull", "slow", "chill", "shred", "sunder", "bleeding"]

/-- Embeds `cleanup_expired_statuses` (rules/status_pipeline.py lines
124-128): drop every instance whose remaining is not positive. -/
def cleanup_expired_statuses (sm : StatusMap) : StatusMap :=
  sm.filter (fun p => 0 < p.2.remaining)

/-- The key list built by `_iter_statuses_in_order` (rules/status_pipeline.py
lines 235-241): active PRIORITY keys first, then the remaining active keys
of the map in encounter order, skipping keys already collected. -/
def iterActiveKeys (sm : StatusMap) : List String :=
  let keys1 := PRIORITY.filter (fun k => has_status sm k)
  (sm.map (fun p => p.1)).foldl
    (fun acc k => if k ∉ acc ∧ has_status sm k = true then acc ++ [k] else acc) keys1

/-- The lookup loop at the end of `_iter_statuses_in_order` (lines 242-246):
fetch each instance and its catalog definition, raising KeyError for a key
outside the catalog. -/
def iterBuild (sm : StatusMap) :
    List String → Except PyError (List (String × StatusInstance5 × StatusDef5))
  | [] => .ok []
  | k :: rest =>
      match sm.lookup k with
      | none => .error (.keyError k)
      | some inst => do
          let sd ← get_status k
          let out ← iterBuild sm rest
          return (k, inst, sd) :: out

/-- Embeds `_iter_statuses_in_order` (rules/status_pipeline.py lines
235-246). -/
def _iter_statuses_in_order (sm : StatusMap) :
    Except PyError (List (String × StatusInstance5 × StatusDef5)) :=
  iterBuild sm (iterActiveKeys sm)

/-- Embeds `StatusEvent` (rules/status_pipeline.py lines 30-37). -/
structure StatusEvent9 where
  type' : String
  target_uid : String
  amount : ℚ
  payload : List (String × String)
deriving DecidableEq, Repr

/-- Embeds `StatusFrame` (rules/status_pipeline.py lines 40-67). -/
structure StatusFrame9 where
  can_act : Bool
  can_use_active_skills : Bool
  can_basic_attack : Bool
  ignore_passives : Bool
  block_ap_gain : Bool
  attack_damage_mult : ℚ
  skill_damage_mult : ℚ
  damage_taken_mult : ℚ
  ap_gain_base_delta : ℚ
  mhr_base_delta : ℚ
  accuracy_inc_pct_delta : ℚ
  armour_base_delta : ℚ
  mr_base_delta : ℚ
  events : List StatusEvent9
deriving DecidableEq, Repr

/-- The dataclass defaults of `StatusFrame`. -/
def baseFrame : StatusFrame9 :=
  ⟨true, true, true, false, false, 1, 1, 1, 0, 0, 0, 0, 0, []⟩

/-- Embeds `_pct_less_to_mult` (rules/status_pipeline.py lines 219-224). -/
def _pct_less_to_mult (pct_less : ℚ) : ℚ :=
  max 0 (1 - (max 0 pct_less) / 100)

/-- Embeds `_pct_more_to_mult` (rules/status_pipeline.py lines 227-232). -/
def _pct_more_to_mult (pct_more : ℚ) : ℚ :=
  max 0 (1 + pct_more / 100)

/-- Modelled from the spec: the module `rules/status_handlers/stun.py` is
imported by `build_start_turn_frame` but is not under src. Per the spec,
stun is a control status that blocks acting this turn (and per the design
notes it does not set block_ap_gain). -/
def stun_on_start_turn (fr : StatusFrame9) : StatusFrame9 :=
  { fr with can_act := false }

/-- Modelled from the spec: the module `rules/status_handlers/bleeding.py`
is imported by `build_start_turn_frame` but is not under src. Per the spec
a damage-over-time status enqueues a damage event at turn start; bleeding
deals its configured ratio (default 30 percent) of the last triggered
hit. -/
def bleeding_on_start_turn (uid : String) (inst : StatusInstance5)
    (fr : StatusFrame9) : StatusFrame9 :=
  { fr with events := fr.events ++
      [⟨"damage", uid,
        ((inst.params.lookup "dot_ratio_of_last_triggered_hit").getD (3/10))
          * ((inst.params.lookup "last_hit_damage").getD 0), []⟩] }

/-- One arm of the dispatch chain in `build_start_turn_frame`
(rules/status_pipeline.py lines 262-319). -/
def frameStep (uid : String) (fr : StatusFrame9)
    (e : String × StatusInstance5 × StatusDef5) : StatusFrame9 :=
  let key := e.1
  let inst := e.2.1
  if key = "stun" then stun_on_start_turn fr
  else if key = "immobilized" then { fr with can_act := false }
  else if key = "silence" then { fr with can_use_active_skills := false }
  else if key = "disarm" then { fr with can_basic_attack := false }
  else if key = "break" then { fr with ignore_passives := true }
  else if key = "panic" then
    { fr with skill_damage_mult := fr.skill_damage_mult
        * _pct_less_to_mult ((inst.params.lookup "skill_damage_less_pct").getD 0) }
  else if key = "weaken" then
    { fr with attack_damage_mult := fr.attack_damage_mult
        * _pct_less_to_mult ((inst.params.lookup "attack_damage_less_pct").getD 0) }
  else if key = "brand" then
    { fr with damage_taken_mult := fr.damage_taken_mult
        * _pct_more_to_mult ((inst.params.lookup "damage_taken_more_pct").getD 0) }
  else if key = "dull" then
    { fr with accuracy_inc_pct_delta := fr.accuracy_inc_pct_delta
        + ((inst.params.lookup "accuracy_inc_pct").getD 0) }
  else if key = "slow" then
    { fr with ap_gain_base_delta := fr.ap_gain_base_delta
        + ((inst.params.lookup "ap_base_delta").getD 0) }
  else if key = "chill" then
    { fr with
        ap_gain_base_delta := fr.ap_gain_base_delta
          + ((inst.params.lookup "ap_base_delta").getD (-5)),
        mhr_base_delta := fr.mhr_base_delta
          + ((inst.params.lookup "mhr_base_delta").getD (-10)) }
  else if key = "shred" then
    { fr with armour_base_delta := fr.armour_base_delta
        + ((inst.params.lookup "armour_base_delta").getD 0) }
  else if key = "sunder" then
    { fr with mr_base_delta := fr.mr_base_delta
        + ((inst.params.lookup "mr_base_delta").getD 0) }
  else if key = "bleeding" then bleeding_on_start_turn uid inst fr
  else fr

/-- Embeds `build_start_turn_frame` (rules/status_pipeline.py lines
253-330); also returns the cleaned status map, since the cleanup mutates
the unit. -/
def build_start_turn_frame (uid : String) (sm0 : StatusMap) :
    Except PyError (StatusMap × StatusFrame9) := do
  let sm := cleanup_expired_statuses sm0
  let entries ← _iter_statuses_in_order sm
  let fr := entries.foldl (frameStep uid) baseFrame
  let fr := if fr.can_act = false then
      { fr with can_basic_attack := false, can_use_active_skills := false }
    else fr
  let fr := if fr.can_act = false then
      { fr with events := fr.events ++
          [⟨"log", uid, 0, [("msg", uid ++ " cannot act due to status")]⟩] }
    else fr
  return (sm, fr)

/-- C9 counterexample: a unit carrying the non-catalog status key "poison"
makes `build_start_turn_frame` raise KeyError instead of completing with a
StatusFrame. -/
theorem c9_unknown_status_counterexample :
    build_start_turn_frame "A-1" [("poison", ⟨"poison", 2, 1, [], none⟩)]
      = .error (.keyError "poison") := by
  rfl

theorem lookup_isSome_of_mem_keys (sm : StatusMap) (k : String)
    (h : k ∈ sm.map (fun p => p.1)) : (sm.lookup k).isSome := by
  induction sm with
  | nil => simp at h
  | cons p rest ih =>
    rw [List.map_cons, List.mem_cons] at h
    by_cases hk : k = p.1
    · simp [List.lookup, hk]
    · have h2 : k ∈ rest.map (fun p => p.1) := h.resolve_left hk
      have hrest := ih h2
      simp only [List.lookup]
      rw [show (k == p.1) = false from beq_eq_false_iff_ne.mpr hk]
      exact hrest

theorem lookup_isSome_of_has_status (sm : StatusMap) (k : String)
    (h : has_status sm k = true) : (sm.lookup k).isSome := by
  unfold has_status at h
  cases hl : sm.lookup k with
  | none => rw [hl] at h; simp at h
  | some i => simp

theorem priority_in_catalog : ∀ k ∈ PRIORITY, (STATUS.lookup k).isSome := by
  intro k hk
  fin_cases hk <;> decide

theorem foldl_append_filter (act : String → Bool) :
    ∀ (ks acc : List String), ks.Nodup →
      ks.foldl (fun a k => if k ∉ a ∧ act k = true then a ++ [k] else a) acc
        = acc ++ ks.filter (fun k => act k && decide (k ∉ acc)) := by
  intro ks
  induction ks with
  | nil => intro acc _; simp
  | cons k rest ih =>
    intro acc hnd
    have hnd' : rest.Nodup := (List.nodup_cons.mp hnd).2
    have hknotin : k ∉ rest := (List.nodup_cons.mp hnd).1
    simp only [List.foldl_cons]
    by_cases hc : k ∉ acc ∧ act k = true
    · rw [if_pos hc, ih _ hnd']
      have hfeq : rest.filter (fun x => act x && decide (x ∉ acc ++ [k]))
          = rest.filter (fun x => act x && decide (x ∉ acc)) := by
        apply List.filter_congr
        intro x hx
        have hxk : x ≠ k := fun he => hknotin (he ▸ hx)
        simp [List.mem_append, hxk]
      rw [hfeq, List.filter_cons]
      simp [hc.1, hc.2]
    · rw [if_neg hc, ih _ hnd', List.filter_cons]
      rcases not_and_or.mp hc with h1 | h2
      · have hmem : k ∈ acc := not_not.mp h1
        simp [hmem]
      · have h3 : act k = false := by
          cases hak : act k
          · rfl
          · exact absurd hak h2
        simp [h3]

theorem iterActiveKeys_eq (sm : StatusMap)
    (hnd : (sm.map (fun p => p.1)).Nodup) :
    iterActiveKeys sm
      = PRIORITY.filter (fun k => has_status sm k)
        ++ (sm.map (fun p => p.1)).filter
            (fun k => has_status sm k && decide (k ∉ PRIORITY)) := by
  unfold iterActiveKeys
  rw [foldl_append_filter _ _ _ hnd]
  congr 1
  apply List.filter_congr
  intro k _
  by_cases hs : has_status sm k
  · simp [hs, List.mem_filter]
  · simp [hs]

theorem iterBuild_ok (sm : StatusMap) :
    ∀ ks : List String,
      (∀ k ∈ ks, (sm.lookup k).isSome ∧ (STATUS.lookup k).isSome) →
      ∃ l, iterBuild sm ks = .ok l ∧ l.map (fun e => e.1) = ks := by
  intro ks
  induction ks with
  | nil => intro _; exact ⟨[], rfl, rfl⟩
  | cons k rest ih =>
    intro h
    obtain ⟨hs, hc⟩ := h k (List.mem_cons_self k rest)
    obtain ⟨inst, hinst⟩ := Option.isSome_iff_exists.mp hs
    obtain ⟨sd, hsd⟩ := Option.isSome_iff_exists.mp hc
    obtain ⟨l, hl, hmap⟩ := ih (fun x hx => h x (List.mem_cons_of_mem _ hx))
    refine ⟨(k, inst, sd) :: l, ?_, by simp [hmap]⟩
    simp [iterBuild, hinst, get_status, hsd, hl, Bind.bind, Except.bind, pure, Except.pure]

theorem iterActiveKeys_all_found (sm : StatusMap)
    (hcat : ∀ p ∈ sm, (STATUS.lookup p.1).isSome)
    (hnd : (sm.map (fun p => p.1)).Nodup) :
    ∀ k ∈ iterActiveKeys sm, (sm.lookup k).isSome ∧ (STATUS.lookup k).isSome := by
  intro k hk
  rw [iterActiveKeys_eq sm hnd] at hk
  rcases List.mem_append.mp hk with h1 | h2
  · have h1' := List.mem_filter.mp h1
    exact ⟨lookup_isSome_of_has_status _ _ h1'.2, priority_in_catalog _ h1'.1⟩
  · have h2' := List.mem_filter.mp h2
    have hact : has_status sm k = true := by
      have hb := h2'.2
      simp only [Bool.and_eq_true] at hb
      exact hb.1
    refine ⟨lookup_isSome_of_has_status _ _ hact, ?_⟩
    obtain ⟨p, hp, hpk⟩ := List.mem_map.mp h2'.1
    exact hpk ▸ hcat p hp

/-- C9 amended: `_iter_statuses_in_order` visits active statuses in the
fixed priority order stun, immobilized, silence, disarm, break, panic,
weaken, brand, dull, slow, chill, shred, sunder, bleeding, followed by the
remaining active status keys in encounter order; and
`build_start_turn_frame` completes with a StatusFrame whenever every
carried status key is in the catalog (a key outside the catalog raises
KeyError, per the counterexample). -/
theorem c9_status_order_amended (uid : String) (sm : StatusMap)
    (hcat : ∀ p ∈ sm, (STATUS.lookup p.1).isSome)
    (hnd : (sm.map (fun p => p.1)).Nodup) :
    (∃ l, _iter_statuses_in_order sm = .ok l ∧
        l.map (fun e => e.1)
          = PRIORITY.filter (fun k => has_status sm k)
            ++ (sm.map (fun p => p.1)).filter
                (fun k => has_status sm k && decide (k ∉ PRIORITY)))
    ∧ (∃ fr, build_start_turn_frame uid sm = .ok fr) := by
  constructor
  · obtain ⟨l, hl, hmap⟩ :=
      iterBuild_ok sm (iterActiveKeys sm) (iterActiveKeys_all_found sm hcat hnd)
    exact ⟨l, hl, by rw [hmap, iterActiveKeys_eq sm hnd]⟩
  · have hsub : List.Sublist ((cleanup_expired_statuses sm).map (fun p => p.1))
        (sm.map (fun p => p.1)) :=
      (List.filter_sublist _).map _
    have hnd1 : ((cleanup_expired_statuses sm).map (fun p => p.1)).Nodup :=
      hnd.sublist hsub
    have hcat1 : ∀ p ∈ cleanup_expired_statuses sm, (STATUS.lookup p.1).isSome :=
      fun p hp => hcat p (List.mem_of_mem_filter hp)
    obtain ⟨l, hl, -⟩ := iterBuild_ok (cleanup_expired_statuses sm)
      (iterActiveKeys (cleanup_expired_statuses sm))
      (iterActiveKeys_all_found _ hcat1 hnd1)
    simp only [build_start_turn_frame, _iter_statuses_in_order]
    rw [hl]
    exact ⟨_, rfl⟩

/-- Witness for C9 amended at a concrete input: a unit with an active
"deliberate" buff (not in the priority list) and an active "stun" yields
the iteration order stun then deliberate and a completed frame. -/
theorem c9_status_order_amended_witness :
    (∃ l, _iter_statuses_in_order
        [("deliberate", ⟨"deliberate", 1, 1, [], none⟩),
         ("stun", ⟨"stun", 2, 1, [], none⟩)] = .ok l ∧
      l.map (fun e => e.1) = ["stun", "deliberate"])
    ∧ (∃ fr, build_start_turn_frame "A-1"
        [("deliberate", ⟨"deliberate", 1, 1, [], none⟩),
         ("stun", ⟨"stun", 2, 1, [], none⟩)] = .ok fr) := by
  obtain ⟨⟨l, hl, hmap⟩, hfr⟩ := c9_status_order_amended "A-1"
    [("deliberate", ⟨"deliberate", 1, 1, [], none⟩),
     ("stun", ⟨"stun", 2, 1, [], none⟩)]
    (by
      intro p hp
      simp only [List.mem_cons, List.not_mem_nil, or_false] at hp
      rcases hp with rfl | rfl <;> decide)
    (by decide)
  refine ⟨⟨l, hl, ?_⟩, hfr⟩
  rw [hmap]
  decide

/- ============================================================
   rules/cooldowns.py
   ============================================================ -/

/-- Embeds `TickConfig` (rules/cooldowns.py lines 13-20); the dataclass
default is 2. -/
structure TickConfig6 where
  every_team_turns : ℤ
deriving DecidableEq, Repr

/-- Embeds `_dec_nonneg` (rules/cooldowns.py lines 23-24). -/
def dec_nonneg (x : ℤ) : ℤ :=
  if 0 < x then x - 1 else 0

/-- Embeds `should_tick` (rules/cooldowns.py lines 27-32). -/
def should_tick (two_turn_counter : ℤ) (cfg : TickConfig6) : Bool :=
  two_turn_counter % cfg.every_team_turns = 0

/-- The two per-unit containers `apply_two_turn_tick_to_unit` touches:
`u.skill_cooldowns : Dict[str, int]` and `u.statuses : Dict[str, int]`
(this module reads statuses as raw remaining-turn integers). -/
structure TickUnit where
  skill_cooldowns : List (String × ℤ)
  statuses : List (String × ℤ)
deriving DecidableEq, Repr

/-- Embeds `apply_two_turn_tick_to_unit` (rules/cooldowns.py lines 35-73):
decrement every cooldown with `_dec_nonneg`; decrement every status
remaining, collect the keys whose value went from positive to zero, and
pop those keys from the map. -/
def apply_two_turn_tick_to_unit (u : TickUnit) : TickUnit :=
  let cds := u.skill_cooldowns.map (fun p => (p.1, dec_nonneg p.2))
  let sts1 := u.statuses.map (fun p => (p.1, dec_nonneg p.2))
  let expired := (u.statuses.filter
      (fun p => dec_nonneg p.2 = 0 ∧ 0 < p.2)).map (fun p => p.1)
  ⟨cds, sts1.filter (fun p => decide (p.1 ∉ expired))⟩

/-- Embeds `apply_two_turn_tick` (rules/cooldowns.py lines 76-101): no tick
for a non-positive counter or off-beat turn, else tick every unit. -/
def apply_two_turn_tick (units : List TickUnit) (team_turn : ℤ)
    (cfg : TickConfig6) : Bool × List TickUnit :=
  if team_turn ≤ 0 then (false, units)
  else if should_tick team_turn cfg = false then (false, units)
  else (true, units.map apply_two_turn_tick_to_unit)

/-- The state of a unit observed at a given global team-turn, starting from
its state at team-turn 1 and applying the tick rule at each later turn. -/
def unitAtTurn (u : TickUnit) : ℕ → TickUnit
  | 0 => u
  | 1 => u
  | n + 1 => (apply_two_turn_tick [unitAtTurn u n] (n + 1) ⟨2⟩).2.headD (unitAtTurn u n)

/-- The cooldown readings at team-turns 1..6 for a skill cooldown set to 3
at team-turn 1. -/
def cooldownReadings : List ℤ :=
  (List.range 6).map (fun i =>
    ((unitAtTurn ⟨[("skill", 3)], []⟩ (i + 1)).skill_cooldowns.lookup "skill").getD 0)

theorem dec_nonneg_eq_max (v : ℤ) : dec_nonneg v = max (v - 1) 0 := by
  unfold dec_nonneg
  split <;> omega

theorem dec_nonneg_expired_iff (v : ℤ) : (dec_nonneg v = 0 ∧ 0 < v) ↔ v = 1 := by
  unfold dec_nonneg
  constructor
  · rintro ⟨h0, hv⟩
    rw [if_pos hv] at h0
    omega
  · rintro rfl
    norm_num

theorem tick_filter_aux :
    ∀ (sts : List (String × ℤ)) (ex : List String),
      (∀ k ∈ ex, k ∉ sts.map (fun p => p.1)) →
      (sts.map (fun p => p.1)).Nodup →
      (sts.map (fun p => (p.1, dec_nonneg p.2))).filter
          (fun p => decide (p.1 ∉
            ex ++ (sts.filter (fun q => decide (q.2 = 1))).map (fun q => q.1)))
        = sts.filterMap
            (fun p => if p.2 = 1 then none else some (p.1, max (p.2 - 1) 0)) := by
  intro sts
  induction sts with
  | nil => intro ex _ _; simp
  | cons p rest ih =>
    intro ex hdisj hnd
    have hnd' : (rest.map (fun p => p.1)).Nodup :=
      (List.nodup_cons.mp (by simpa using hnd)).2
    have hpnotin : p.1 ∉ rest.map (fun q => q.1) :=
      (List.nodup_cons.mp (by simpa using hnd)).1
    have hpex : p.1 ∉ ex := fun hmem => hdisj p.1 hmem (by simp)
    have hsubexp : ∀ x : String,
        x ∈ (rest.filter (fun q => decide (q.2 = 1))).map (fun q => q.1) →
        x ∈ rest.map (fun q => q.1) := by
      intro x hx
      rcases List.mem_map.mp hx with ⟨q, hq, hqx⟩
      exact hqx ▸ List.mem_map_of_mem _ (List.mem_of_mem_filter hq)
    by_cases hp1 : p.2 = 1
    · have hexp_cons : ((p :: rest).filter (fun q => decide (q.2 = 1))).map (fun q => q.1)
          = p.1 :: (rest.filter (fun q => decide (q.2 = 1))).map (fun q => q.1) := by
        rw [List.filter_cons, if_pos (by simp [hp1])]
        simp
      simp only [hexp_cons]
      simp only [List.map_cons, List.filter_cons, List.filterMap_cons]
      have hhead : ¬ ((decide (p.1 ∉
          ex ++ p.1 :: (rest.filter (fun q => decide (q.2 = 1))).map (fun q => q.1))) = true) := by
        simp
      rw [if_neg hhead, if_pos hp1]
      have hstep : (rest.map (fun p => (p.1, dec_nonneg p.2))).filter
            (fun x => decide (x.1 ∉
              ex ++ p.1 :: (rest.filter (fun q => decide (q.2 = 1))).map (fun q => q.1)))
          = (rest.map (fun p => (p.1, dec_nonneg p.2))).filter
            (fun x => decide (x.1 ∉ (ex ++ [p.1])
              ++ (rest.filter (fun q => decide (q.2 = 1))).map (fun q => q.1))) := by
        apply List.filter_congr
        intro x _
        apply decide_eq_decide.mpr
        simp [List.mem_append, or_assoc]
      rw [hstep]
      apply ih (ex ++ [p.1])
      · intro k hk
        rcases List.mem_append.mp hk with hk1 | hk2
        · exact fun hmem => hdisj k hk1 (List.mem_cons_of_mem _ (by simpa using hmem))
        · have hkp : k = p.1 := by simpa using hk2
          exact hkp ▸ hpnotin
      · exact hnd'
    · have hexp_cons : ((p :: rest).filter (fun q => decide (q.2 = 1))).map (fun q => q.1)
          = (rest.filter (fun q => decide (q.2 = 1))).map (fun q => q.1) := by
        rw [List.filter_cons, if_neg (by simp [hp1])]
      simp only [hexp_cons]
      simp only [List.map_cons, List.filter_cons, List.filterMap_cons]
      have hhead : (decide (p.1 ∉
          ex ++ (rest.filter (fun q => decide (q.2 = 1))).map (fun q => q.1))) = true := by
        simp only [decide_eq_true_eq]
        intro hmem
        rcases List.mem_append.mp hmem with h1 | h2
        · exact hpex h1
        · exact hpnotin (hsubexp _ h2)
      rw [if_pos hhead, if_neg hp1,
        ih ex (fun k hk hmem => hdisj k hk (List.mem_cons_of_mem _ hmem)) hnd',
        dec_nonneg_eq_max]

/-- C6: the two-turn tick fires exactly on team-turn counters divisible by
2; when it fires it decrements every cooldown floored at 0 and every
status remaining floored at 0, removing a status exactly when its
remaining goes from 1 to 0; and a cooldown set to 3 at team-turn 1 reads
3, 2, 2, 1, 1, 0 at team-turns 1 through 6. -/
theorem c6_two_turn_tick (units : List TickUnit) (t : ℤ) (u : TickUnit) :
    (0 < t → ((apply_two_turn_tick units t ⟨2⟩).1 = true ↔ (2 ∣ t)))
    ∧ ((u.statuses.map (fun p => p.1)).Nodup →
        apply_two_turn_tick_to_unit u
          = ⟨u.skill_cooldowns.map (fun p => (p.1, max (p.2 - 1) 0)),
             u.statuses.filterMap
               (fun p => if p.2 = 1 then none else some (p.1, max (p.2 - 1) 0))⟩)
    ∧ cooldownReadings = [3, 2, 2, 1, 1, 0] := by
  refine ⟨?_, ?_, by rfl⟩
  · intro ht
    have h1 : ¬ t ≤ 0 := not_le.mpr ht
    by_cases hmod : t % 2 = 0
    · simp [apply_two_turn_tick, should_tick, h1, hmod, Int.dvd_iff_emod_eq_zero]
    · simp [apply_two_turn_tick, should_tick, h1, hmod, Int.dvd_iff_emod_eq_zero]
  · intro hnd
    unfold apply_two_turn_tick_to_unit
    have hexpired : u.statuses.filter (fun q => decide (dec_nonneg q.2 = 0 ∧ 0 < q.2))
        = u.statuses.filter (fun q => decide (q.2 = 1)) := by
      apply List.filter_congr
      intro q _
      exact decide_eq_decide.mpr (dec_nonneg_expired_iff q.2)
    simp only [hexpired]
    have haux := tick_filter_aux u.statuses [] (by simp) hnd
    simp only [List.nil_append] at haux
    rw [haux]
    have hcds : u.skill_cooldowns.map (fun p => (p.1, dec_nonneg p.2))
        = u.skill_cooldowns.map (fun p => (p.1, max (p.2 - 1) 0)) := by
      apply List.map_congr_left
      intro p _
      rw [dec_nonneg_eq_max]
    rw [hcds]

/-- Witness for C6 at concrete inputs: team-turn 4 ticks; a unit with
cooldown 3, a 1-turn stun and a 2-turn brand ends with cooldown 2 and only
the brand left at 1. -/
theorem c6_two_turn_tick_witness :
    ((apply_two_turn_tick [] 4 ⟨2⟩).1 = true ↔ ((2 : ℤ) ∣ 4))
    ∧ apply_two_turn_tick_to_unit ⟨[("cd", 3)], [("stun", 1), ("brand", 2)]⟩
      = ⟨[("cd", 2)], [("brand", 1)]⟩ := by
  have h := c6_two_turn_tick [] 4 ⟨[("cd", 3)], [("stun", 1), ("brand", 2)]⟩
  refine ⟨h.1 (by norm_num), ?_⟩
  rw [h.2.1 (by decide)]
  decide

/- ============================================================
   core/grid.py
   ============================================================ -/

/-- Embeds `SLOT_TO_POS` (core/grid.py lines 43-47): slot to (row, col). -/
def SLOT_TO_POS : List (ℤ × (ℤ × ℤ)) :=
  [(1, (0, 0)), (2, (0, 1)), (3, (0, 2)),
   (4, (1, 0)), (5, (1, 1)), (6, (1, 2)),
   (7, (2, 0)), (8, (2, 1)), (9, (2, 2))]

/-- Embeds `POS_TO_SLOT` (core/grid.py line 49). -/
def POS_TO_SLOT : List ((ℤ × ℤ) × ℤ) :=
  SLOT_TO_POS.map (fun p => (p.2, p.1))

/-- Embeds `is_valid_slot` (core/grid.py lines 52-53). -/
def is_valid_slot (slot : ℤ) : Bool :=
  (SLOT_TO_POS.lookup slot).isSome

/-- Embeds `slot_to_pos` with `require_slot` (core/grid.py lines 56-63):
ValueError on an invalid slot. -/
def slot_to_pos (slot : ℤ) : Except PyError (ℤ × ℤ) :=
  match SLOT_TO_POS.lookup slot with
  | some rc => .ok rc
  | none => .error .valueError

/-- Embeds `pos_to_slot` (core/grid.py lines 66-69). -/
def pos_to_slot (row col : ℤ) : Except PyError ℤ :=
  if 0 ≤ row ∧ row < 3 ∧ 0 ≤ col ∧ col < 3 then
    match POS_TO_SLOT.lookup (row, col) with
    | some t => .ok t
    | none => .error (.keyError "pos")
  else .error .valueError

/-- Embeds `left_of` (core/grid.py lines 99-103). -/
def left_of (slot : ℤ) : Except PyError (Option ℤ) := do
  let rc ← slot_to_pos slot
  if rc.2 - 1 < 0 then return none
  else do
    let t ← pos_to_slot rc.1 (rc.2 - 1)
    return (some t)

/-- Embeds `right_of` (core/grid.py lines 106-110). -/
def right_of (slot : ℤ) : Except PyError (Option ℤ) := do
  let rc ← slot_to_pos slot
  if rc.2 + 1 ≥ 3 then return none
  else do
    let t ← pos_to_slot rc.1 (rc.2 + 1)
    return (some t)

/-- Embeds `up_of` (core/grid.py lines 113-117). -/
def up_of (slot : ℤ) : Except PyError (Option ℤ) := do
  let rc ← slot_to_pos slot
  if rc.1 - 1 < 0 then return none
  else do
    let t ← pos_to_slot (rc.1 - 1) rc.2
    return (some t)

/-- Embeds `down_of` (core/grid.py lines 120-124). -/
def down_of (slot : ℤ) : Except PyError (Option ℤ) := do
  let rc ← slot_to_pos slot
  if rc.1 + 1 ≥ 3 then return none
  else do
    let t ← pos_to_slot (rc.1 + 1) rc.2
    return (some t)

/-- Embeds `adjacent_horizontal` (core/grid.py lines 127-139). Note that
this is the only same-row neighbor helper the grid module defines: there
is no `horizontal_neighbors` in core/grid.py. -/
def adjacent_horizontal (slot : ℤ) : Except PyError (List ℤ) := do
  let l ← left_of slot
  let r ← right_of slot
  return (l.toList ++ r.toList)

/-- Embeds `cross_neighbors` (core/grid.py lines 142-153): left, right, up,
down, keeping only the neighbors that exist. -/
def cross_neighbors (slot : ℤ) : Except PyError (List ℤ) := do
  let l ← left_of slot
  let r ← right_of slot
  let u ← up_of slot
  let d ← down_of slot
  return (l.toList ++ r.toList ++ u.toList ++ d.toList)

/-- Embeds `behind_in_line` (core/grid.py lines 156-169). -/
def behind_in_line (slot : ℤ) (steps : ℤ) : Except PyError (Option ℤ) :=
  if steps ≤ 0 then .ok (some slot)
  else do
    let rc ← slot_to_pos slot
    let rr := rc.1 + steps
    if rr ≥ 3 then return none
    else do
      let t ← pos_to_slot rr rc.2
      return (some t)

/- ============================================================
   rules/aoe.py
   ============================================================ -/

/-- Embeds `AoETarget` (rules/aoe.py lines 13-17). -/
structure AoETarget3 where
  slot : ℤ
  ratio : ℚ
deriving DecidableEq, Repr

/-- Embeds `_aoe_key` (rules/aoe.py lines 20-25) for string inputs: strip
surrounding whitespace and lowercase (written over the character list so
that it evaluates in the kernel). -/
def _aoe_key (aoe : String) : String :=
  String.mk
    ((((aoe.data.dropWhile (fun c => c.isWhitespace)).reverse.dropWhile
        (fun c => c.isWhitespace)).reverse).map Char.toLower)

/-- The recursion of `_dedupe_keep_order` (rules/aoe.py lines 28-36) with
its running set of seen slots. -/
def dedupeAux : List AoETarget3 → List ℤ → List AoETarget3
  | [], _ => []
  | t :: rest, seen =>
      if t.slot ∈ seen then dedupeAux rest seen
      else t :: dedupeAux rest (t.slot :: seen)

/-- Embeds `_dedupe_keep_order` (rules/aoe.py lines 28-36). -/
def _dedupe_keep_order (items : List AoETarget3) : List AoETarget3 :=
  dedupeAux items []

/-- The loop of `_line_behind_slots` (rules/aoe.py lines 39-54): collect
`behind_in_line` results for steps 1, 2, ... until one is missing. -/
def lineBehindAux (target_slot : ℤ) : ℤ → ℕ → Except PyError (List ℤ)
  | _, 0 => .ok []
  | step, rem + 1 => do
      let b ← behind_in_line target_slot step
      match b with
      | none => return []
      | some x => do
          let out ← lineBehindAux target_slot (step + 1) rem
          return (x :: out)

/-- Embeds `_line_behind_slots` (rules/aoe.py lines 39-54). -/
def _line_behind_slots (target_slot : ℤ) (max_steps : ℕ) : Except PyError (List ℤ) :=
  lineBehindAux target_slot 1 max_steps

/-- Embeds `resolve_weapon_aoe` (rules/aoe.py lines 57-129). The
row-adjacent branch of the source calls `grid.horizontal_neighbors`, a
name core/grid.py does not define (it defines `adjacent_horizontal`), so
that branch raises AttributeError. -/
def resolve_weapon_aoe (target_slot : ℤ) (aoe : String)
    (aoe_ratio_1 aoe_ratio_2 : ℚ) : Except PyError (List AoETarget3) :=
  let key := _aoe_key aoe
  let out : List AoETarget3 := [⟨target_slot, 1⟩]
  if key = "single" ∨ key = "none" then .ok out
  else if key = "adjacent_1" ∨ key = "adjacent" ∨ key = "row_adjacent" then
    .error (.attributeError "horizontal_neighbors")
  else if key = "cross" ∨ key = "cross_1" ∨ key = "plus" then do
    let ns ← cross_neighbors target_slot
    return _dedupe_keep_order (out ++ ns.map (fun t => ⟨t, aoe_ratio_1⟩))
  else if key = "line" ∨ key = "column" ∨ key = "pierce" ∨ key = "line_2" then do
    let behind ← _line_behind_slots target_slot 2
    let out := match behind with
      | [] => out
      | [b1] => out ++ [⟨b1, aoe_ratio_2⟩]
      | b1 :: b2 :: _ => out ++ [⟨b1, aoe_ratio_2⟩, ⟨b2, aoe_ratio_1⟩]
    return _dedupe_keep_order out
  else if key = "behind_1" ∨ key = "pierce_1" then do
    let b ← behind_in_line target_slot 1
    let out := match b with
      | some t => out ++ [⟨t, aoe_ratio_1⟩]
      | none => out
    return _dedupe_keep_order out
  else if key = "behind_2" ∨ key = "pierce_2" then do
    let behind ← _line_behind_slots target_slot 2
    let out := match behind with
      | [] => out
      | [b1] => out ++ [⟨b1, aoe_ratio_2⟩]
      | b1 :: b2 :: _ => out ++ [⟨b1, aoe_ratio_2⟩, ⟨b2, aoe_ratio_1⟩]
    return _dedupe_keep_order out
  else .ok out

/-- The cross neighbors as the specification words them, from row and
column arithmetic: left and right in the same row, up and down in the
same line, when they exist (listed in the source order left, right, up,
down). -/
def specCrossNeighbors (s : ℤ) : List ℤ :=
  (if (s - 1) % 3 ≥ 1 then [s - 1] else [])
  ++ (if (s - 1) % 3 ≤ 1 then [s + 1] else [])
  ++ (if (s - 1) / 3 ≥ 1 then [s - 3] else [])
  ++ (if (s - 1) / 3 ≤ 1 then [s + 3] else [])

/-- The line-pierce extra targets as the specification words them: the
immediate-behind slot at the near ratio and the second-behind slot at the
far ratio, when those slots exist within the grid. -/
def specLineBehind (s : ℤ) (near far : ℚ) : List AoETarget3 :=
  (if (s - 1) / 3 ≤ 1 then [⟨s + 3, near⟩] else [])
  ++ (if (s - 1) / 3 ≤ 0 then [⟨s + 6, far⟩] else [])

/-- C3: for every valid primary slot, single yields only the primary at
ratio 1; cross yields the primary first and then the existing
left/right/up/down neighbors at aoe_ratio_1; line/pierce yields the
primary, then the immediate-behind slot at the near ratio aoe_ratio_2 and
the second-behind slot at the far ratio aoe_ratio_1 when they exist; but
the row-adjacent branch raises AttributeError because the source calls
the non-existent `grid.horizontal_neighbors`. -/
theorem c3_resolve_weapon_aoe_shapes (s : ℤ) (h1 : 1 ≤ s) (h9 : s ≤ 9)
    (r1 r2 : ℚ) :
    resolve_weapon_aoe s "single" r1 r2 = .ok [⟨s, 1⟩]
    ∧ resolve_weapon_aoe s "row_adjacent" r1 r2
        = .error (.attributeError "horizontal_neighbors")
    ∧ resolve_weapon_aoe s "cross" r1 r2
        = .ok (⟨s, 1⟩ :: (specCrossNeighbors s).map (fun t => ⟨t, r1⟩))
    ∧ resolve_weapon_aoe s "line" r1 r2
        = .ok (⟨s, 1⟩ :: specLineBehind s r2 r1) := by
  interval_cases s <;> exact ⟨rfl, rfl, rfl, rfl⟩

/-- Witness for C3 at slot 5 with the default ratios: the row-adjacent
branch raises and the cross branch hits 4, 6, 2, 8 at ratio 0.5. -/
theorem c3_resolve_weapon_aoe_shapes_witness :
    resolve_weapon_aoe 5 "row_adjacent" (1/2) (3/4)
      = .error (.attributeError "horizontal_neighbors")
    ∧ resolve_weapon_aoe 5 "cross" (1/2) (3/4)
      = .ok (⟨5, 1⟩ :: (specCrossNeighbors 5).map (fun t => ⟨t, 1/2⟩)) := by
  have h := c3_resolve_weapon_aoe_shapes 5 (by norm_num) (by norm_num) (1/2) (3/4)
  exact ⟨h.2.1, h.2.2.1⟩

/- ============================================================
   rules/turn_order.py
   ============================================================ -/

/-- Embeds `TurnSelectionRule` (rules/turn_order.py lines 78-90) without the
fixed early map, which is `earlyMap` below (the dataclass default is never
overridden). -/
structure TurnSelectionRule where
  normal_max : ℕ
  normal_ap_threshold : ℤ
deriving DecidableEq, Repr

/-- The `early_map` default of `TurnSelectionRule`: team-turns 1..4 allow
2, 3, 4, 5 actors. -/
def earlyMap : List (ℤ × ℕ) :=
  [(1, 2), (2, 3), (3, 4), (4, 5)]

/-- Embeds `selection_params` (rules/turn_order.py lines 93-100): returns
(max actors, ignore-threshold flag, AP threshold). -/
def selection_params (team_turn : ℤ) (rule : TurnSelectionRule) : ℕ × Bool × ℤ :=
  match earlyMap.lookup team_turn with
  | some m => (m, true, rule.normal_ap_threshold)
  | none => (rule.normal_max, false, rule.normal_ap_threshold)

/-- A living unit as the selection step of `start_team_turn` sees it: its
slot, its AP after the gain step (read through `int(...)`), and the
can_act flag of its start-turn status context. -/
structure UnitSel where
  slot : ℤ
  ap : ℤ
  can_act : Bool
deriving DecidableEq, Repr

/-- The sort key of `start_team_turn` step 3 (rules/turn_order.py line 212):
`sorted` by (-ap, slot), i.e. AP descending with ties broken by ascending
slot. -/
def selLE (a b : UnitSel) : Bool :=
  decide (b.ap < a.ap) || (decide (a.ap = b.ap) && decide (a.slot ≤ b.slot))

/-- Embeds the actor-selection step of `start_team_turn` (rules/turn_order.py
lines 210-223): sort by AP descending then slot ascending, keep units at
or above the AP threshold unless the early rule ignores it, drop units
that cannot act, and take the top max-actors. -/
def select_actors (units : List UnitSel) (team_turn : ℤ)
    (rule : TurnSelectionRule) : List UnitSel :=
  let ps := selection_params team_turn rule
  let sorted1 := units.mergeSort selLE
  let sorted2 := if ps.2.1 then sorted1 else sorted1.filter (fun u => ps.2.2 ≤ u.ap)
  let sorted3 := sorted2.filter (fun u => u.can_act)
  sorted3.take ps.1

/-- The ranking the specification words: AP descending, ties broken by
ascending slot number. -/
def claimRank (a b : UnitSel) : Prop :=
  b.ap < a.ap ∨ (a.ap = b.ap ∧ a.slot ≤ b.slot)

theorem selLE_trans (a b c : UnitSel) (h1 : selLE a b) (h2 : selLE b c) : selLE a c := by
  simp only [selLE, Bool.or_eq_true, Bool.and_eq_true, decide_eq_true_eq] at h1 h2 ⊢
  omega

theorem selLE_total (a b : UnitSel) : selLE a b || selLE b a := by
  simp only [selLE, Bool.or_eq_true, Bool.and_eq_true, decide_eq_true_eq]
  omega

theorem select_actors_sublist (units : List UnitSel) (t : ℤ)
    (rule : TurnSelectionRule) :
    (select_actors units t rule).Sublist (units.mergeSort selLE) := by
  unfold select_actors
  refine List.Sublist.trans (List.take_sublist _ _) ?_
  refine List.Sublist.trans (List.filter_sublist _) ?_
  by_cases hig : (selection_params t rule).2.1
  · rw [if_pos hig]
  · rw [if_neg hig]
    exact List.filter_sublist _

/-- C4: on global team-turns 1..4 the cap is the team-turn plus one
(2, 3, 4, 5) and the AP threshold is ignored, so the actors are the top
living act-capable units up to the cap and exactly min(cap, act-capable
count) actors are selected; from team-turn 5 onward the cap is the
configured normal maximum and only units at or above the configured AP
threshold are eligible; actors are ranked by AP descending with ties by
ascending slot, and units whose frame has can_act false are excluded. -/
theorem c4_actor_selection (units : List UnitSel) (t : ℤ)
    (rule : TurnSelectionRule) :
    ((1 ≤ t ∧ t ≤ 4) →
      selection_params t rule = ((t + 1).toNat, true, rule.normal_ap_threshold)
      ∧ select_actors units t rule
          = ((units.mergeSort selLE).filter (fun u => u.can_act)).take (t + 1).toNat
      ∧ (select_actors units t rule).length
          = min (t + 1).toNat (units.countP (fun u => u.can_act)))
    ∧ (5 ≤ t →
      selection_params t rule = (rule.normal_max, false, rule.normal_ap_threshold)
      ∧ select_actors units t rule
          = ((units.mergeSort selLE).filter
              (fun u => u.can_act && decide (rule.normal_ap_threshold ≤ u.ap))).take
              rule.normal_max)
    ∧ (select_actors units t rule).Pairwise claimRank
    ∧ (∀ u ∈ select_actors units t rule, u.can_act = true) := by
  refine ⟨?_, ?_, ?_, ?_⟩
  · rintro ⟨ht1, ht4⟩
    have hlen : ∀ n : ℕ,
        (((units.mergeSort selLE).filter (fun u => u.can_act)).take n).length
          = min n (units.countP (fun u => u.can_act)) := by
      intro n
      rw [List.length_take, ← List.countP_eq_length_filter]
      rw [(List.mergeSort_perm units selLE).countP_eq]
    interval_cases t
    · exact ⟨rfl, rfl, by rw [show select_actors units 1 rule
        = ((units.mergeSort selLE).filter (fun u => u.can_act)).take 2 from rfl]; exact hlen 2⟩
    · exact ⟨rfl, rfl, by rw [show select_actors units 2 rule
        = ((units.mergeSort selLE).filter (fun u => u.can_act)).take 3 from rfl]; exact hlen 3⟩
    · exact ⟨rfl, rfl, by rw [show select_actors units 3 rule
        = ((units.mergeSort selLE).filter (fun u => u.can_act)).take 4 from rfl]; exact hlen 4⟩
    · exact ⟨rfl, rfl, by rw [show select_actors units 4 rule
        = ((units.mergeSort selLE).filter (fun u => u.can_act)).take 5 from rfl]; exact hlen 5⟩
  · intro h5
    have hlk : earlyMap.lookup t = none := by
      simp only [earlyMap, List.lookup]
      rw [show (t == (1 : ℤ)) = false from beq_eq_false_iff_ne.mpr (by omega),
        show (t == (2 : ℤ)) = false from beq_eq_false_iff_ne.mpr (by omega),
        show (t == (3 : ℤ)) = false from beq_eq_false_iff_ne.mpr (by omega),
        show (t == (4 : ℤ)) = false from beq_eq_false_iff_ne.mpr (by omega)]
    have hps : selection_params t rule = (rule.normal_max, false, rule.normal_ap_threshold) := by
      unfold selection_params
      rw [hlk]
    refine ⟨hps, ?_⟩
    unfold select_actors
    rw [hps]
    simp only [Bool.false_eq_true, if_false]
    rw [List.filter_filter]
  · have hsorted : (units.mergeSort selLE).Pairwise (fun a b => selLE a b = true) :=
      List.sorted_mergeSort (fun a b c => selLE_trans a b c) selLE_total units
    have hpw := hsorted.sublist (select_actors_sublist units t rule)
    refine hpw.imp ?_
    intro a b hab
    simpa only [selLE, Bool.or_eq_true, Bool.and_eq_true, decide_eq_true_eq] using hab
  · intro u hu
    unfold select_actors at hu
    have hu2 := List.mem_of_mem_take hu
    exact List.of_mem_filter hu2

/-- Witness for C4 at a concrete input: six act-capable units on team-turn 2
with the default rule select exactly 3 actors. -/
theorem c4_actor_selection_witness :
    (select_actors
      [⟨1, 100, true⟩, ⟨2, 80, true⟩, ⟨3, 120, true⟩,
       ⟨4, 80, true⟩, ⟨5, 10, true⟩, ⟨6, 50, true⟩] 2 ⟨5, 100⟩).length = 3 := by
  have h := (c4_actor_selection
    [⟨1, 100, true⟩, ⟨2, 80, true⟩, ⟨3, 120, true⟩,
     ⟨4, 80, true⟩, ⟨5, 10, true⟩, ⟨6, 50, true⟩] 2 ⟨5, 100⟩).1
    ⟨by norm_num, by norm_num⟩
  rw [h.2.2]
  decide

/- ============================================================
   formulas/ap.py
   ============================================================ -/

/-- Embeds `compute_ap_gain` (formulas/ap.py lines 11-21): the AP-gain stat
through the same base/inc/more/less pipeline, clamped below at 0. -/
def compute_ap_gain (mods : List Mod3) (base_ap_gain : ℚ) : ℚ :=
  evaluate_stat "ap_gain" base_ap_gain mods (some 0) none

/- ============================================================
   sim/engine.py
   ============================================================ -/

/-- Embeds `EngineConfig` (sim/engine.py lines 17-26). -/
structure EngineConfig where
  max_team_turns : ℕ
  action_ap_cost : ℤ
  ap_threshold : ℤ
  normal_max_actors : ℕ
deriving DecidableEq, Repr

/-- The dataclass defaults of `EngineConfig`. -/
def defaultEngineConfig : EngineConfig := ⟨200, 100, 100, 5⟩

/-- A unit as the engine reads it: identity, team, slot, hit points and
action points (`_get_ap` goes through `int(...)`). -/
structure EUnit1 where
  uid : String
  team : String
  slot : ℤ
  hp : ℚ
  ap : ℤ
deriving DecidableEq, Repr

/-- Embeds `Board` (model/board.py lines 81-127): two slot-to-unit maps,
one per team. -/
structure Board1 where
  team_a : List (ℤ × EUnit1)
  team_b : List (ℤ × EUnit1)
deriving DecidableEq, Repr

/-- Embeds `BattleState` (model/battle_state.py) for the engine run: the
board, the global team-turn counter and the starting team. The RNG and
the log sink play no part in the properties proved here. -/
structure BState1 where
  board : Board1
  team_turn : ℤ
  starts_team : String
deriving DecidableEq, Repr

/-- The external action-resolution strategy. Modelled from the spec: the
module `sim/actions.py` imported by sim/engine.py line 14 is not under
src; the spec says the engine delegates each selected actor to an
injected strategy receiving (state, actor, acting team). -/
abbrev ActFn := BState1 → EUnit1 → String → BState1

/-- The other team key, as in the engine fallback on sim/engine.py line
133 and the victory check on line 225. -/
def otherTeam (team : String) : String :=
  if team = "A" then "B" else "A"

/-- The attribute names a `Board` instance (model/board.py lines 81-127)
actually exposes: the two dataclass fields and its four methods. -/
def board_attribute_names : List String :=
  ["team_a", "team_b", "get", "set", "alive_slots", "exposed_frontline_slots"]

/-- Python `hasattr(board, name)` for the repository Board. -/
def hasattrBoard (name : String) : Bool :=
  board_attribute_names.contains name

/-- Embeds `_team_units` (sim/engine.py lines 65-85): probe the board for
`team_units`, `units` or `by_id` and raise AttributeError when none of
them exists. The repository Board defines none of the three probed
accessors, so the three positive branches are unreachable (their bodies
would call the missing accessor) and the call always raises. -/
def _team_units (_b : Board1) (_team : String) : Except PyError (List EUnit1) :=
  if hasattrBoard "team_units" then .ok []
  else if hasattrBoard "units" then .ok []
  else if hasattrBoard "by_id" then .ok []
  else .error (.attributeError
    "Board missing team accessors (expected team_units/units/by_id).")

/-- Embeds `_living_team_units` (sim/engine.py lines 88-90) over `_is_alive`
(hp > 0), propagating the `_team_units` error. -/
def _living_team_units (st : BState1) (team : String) : Except PyError (List EUnit1) := do
  let us ← _team_units st.board team
  return us.filter (fun u => 0 < u.hp)

/-- Embeds `_team_defeated` (sim/engine.py lines 93-94). -/
def team_defeated (st : BState1) (team : String) : Except PyError Bool := do
  let l ← _living_team_units st team
  return decide (l.length = 0)

/-- Embeds the call `gain = int(compute_ap_gain(u))` in `step_team_turn`
(sim/engine.py line 154). `formulas.ap.compute_ap_gain` is declared
keyword-only as `compute_ap_gain(*, mods, base_ap_gain)`, so the
positional call would raise TypeError; with the repository Board this
line is never reached, because `_team_units` raises first. -/
def engine_compute_ap_gain (_u : EUnit1) : Except PyError ℤ :=
  .error .typeError

/-- All units of the board, for actor lookup by identity. -/
def boardUnits (b : Board1) : List EUnit1 :=
  b.team_a.map (fun p => p.2) ++ b.team_b.map (fun p => p.2)

/-- Writes a unit AP back into the state (`_set_ap`, sim/engine.py lines
48-54). -/
def setAp (st : BState1) (uid : String) (ap : ℤ) : BState1 :=
  { st with board :=
      ⟨st.board.team_a.map (fun p => if p.2.uid = uid then (p.1, { p.2 with ap := ap }) else p),
       st.board.team_b.map (fun p => if p.2.uid = uid then (p.1, { p.2 with ap := ap }) else p)⟩ }

/-- The AP-gain loop of `step_team_turn` (sim/engine.py lines 151-157): for
each living unit of the acting team, add the computed gain to its AP. -/
def apGainLoop : List EUnit1 → BState1 → Except PyError BState1
  | [], st => .ok st
  | u :: rest, st => do
      let g ← engine_compute_ap_gain u
      apGainLoop rest (setAp st u.uid (u.ap + g))

/-- The actor loop of `step_team_turn` (sim/engine.py lines 195-228): for
each selected actor still alive, run the delegated action and then check
whether the opposing team is defeated, ending the team turn early with
the winner. -/
def actorLoop (act : ActFn) : List String → String → BState1 → Except PyError (BState1 × String)
  | [], _, st => .ok (st, "")
  | uid :: rest, team, st =>
      match (boardUnits st.board).find? (fun u => u.uid = uid) with
      | none => actorLoop act rest team st
      | some u =>
          if 0 < u.hp then do
            let st1 := act st u team
            let defeated ← team_defeated st1 (otherTeam team)
            if defeated then .ok (st1, team)
            else actorLoop act rest team st1
          else actorLoop act rest team st

/-- Embeds `BattleEngine.step_team_turn` (sim/engine.py lines 120-234).
The optional hooks the engine probes with `hasattr` are skipped exactly as
they are at runtime: `turn_order.get_acting_team`,
`cooldowns.maybe_two_turn_tick`, `status_pipeline.on_team_turn_start`,
`turn_order.get_turn_rule`, `turn_order.format_actor_list`, the
`on_actor_action_*` and `on_team_turn_end` hooks do not exist in the
imported modules, so the fallback branches run. -/
def step_team_turn (act : ActFn) (cfg : EngineConfig) (st0 : BState1) :
    Except PyError (BState1 × String) := do
  let st := { st0 with team_turn := st0.team_turn + 1 }
  let team := if st.team_turn % 2 = 1 then st.starts_team else otherTeam st.starts_team
  let living ← _living_team_units st team
  let st ← apGainLoop living st
  let opener : List (ℤ × ℕ) := [(1, 2), (2, 3), (3, 4), (4, 5)]
  let max_actors := (opener.lookup st.team_turn).getD cfg.normal_max_actors
  let ignore_ap_rule := st.team_turn = 1 ∨ st.team_turn = 2 ∨ st.team_turn = 3 ∨ st.team_turn = 4
  let candidates0 ← _living_team_units st team
  let candidates := candidates0.mergeSort (fun a b => decide (b.ap ≤ a.ap))
  let candidates := if ignore_ap_rule then candidates
    else candidates.filter (fun u => cfg.ap_threshold ≤ u.ap)
  let actors := candidates.take max_actors
  actorLoop act (actors.map (fun u => u.uid)) team st

/-- The loop of `BattleEngine.run` (sim/engine.py lines 113-118). -/
def runLoop (act : ActFn) (cfg : EngineConfig) : ℕ → BState1 → Except PyError String
  | 0, _ => .ok "DRAW"
  | n + 1, st => do
      let r ← step_team_turn act cfg st
      if r.2 = "" then runLoop act cfg n r.1 else return r.2

/-- Embeds `BattleEngine.run` (sim/engine.py lines 101-118): step at most
max_team_turns team turns, returning the winner or "DRAW". -/
def run (act : ActFn) (cfg : EngineConfig) (st : BState1) : Except PyError String :=
  runLoop act cfg cfg.max_team_turns st

/-- C1: for every action strategy, every configuration allowing at least
one team turn, and every battle state built on the repository Board,
`run` raises AttributeError and returns none of "A", "B" or "DRAW": the
first board access of `step_team_turn` is `_living_team_units`, whose
`_team_units` probes the board for `team_units`, `units` or `by_id`, none
of which model/board.py defines, so every step raises before any other
work (the keyword-only `compute_ap_gain` mismatch at line 154 is a
second, unreachable slip behind it). -/
theorem c1_engine_run_raises (act : ActFn) (cfg : EngineConfig) (st : BState1)
    (h : 1 ≤ cfg.max_team_turns) :
    run act cfg st
      = .error (.attributeError
          "Board missing team accessors (expected team_units/units/by_id).") := by
  have hstep : ∀ s : BState1, step_team_turn act cfg s
      = .error (.attributeError
          "Board missing team accessors (expected team_units/units/by_id).") :=
    fun _ => rfl
  unfold run
  cases hn : cfg.max_team_turns with
  | zero => rw [hn] at h; exact absurd h (by norm_num)
  | succ n => simp [runLoop, hstep, Bind.bind, Except.bind]

/-- Witness for C1: a two-unit roster under the default configuration with
a do-nothing strategy. -/
theorem c1_engine_run_raises_witness :
    run (fun st _ _ => st) defaultEngineConfig
      ⟨⟨[(1, ⟨"A-1", "A", 1, 100, 0⟩)], [(1, ⟨"B-1", "B", 1, 100, 0⟩)]⟩, 0, "A"⟩
      = .error (.attributeError
          "Board missing team accessors (expected team_units/units/by_id).") :=
  c1_engine_run_raises (fun st _ _ => st) defaultEngineConfig
    ⟨⟨[(1, ⟨"A-1", "A", 1, 100, 0⟩)], [(1, ⟨"B-1", "B", 1, 100, 0⟩)]⟩, 0, "A"⟩
    (by decide)

/- ============================================================
   formulas/attribute_derivation.py and model/unit.py
   ============================================================ -/

/-- Embeds `DerivedFromAttributes` (formulas/attribute_derivation.py). -/
structure DerivedFromAttributes where
  attack_base : ℚ
  mhr_base : ℚ
  mp_base : ℚ
  mr_base : ℚ
  hp_base : ℚ
  skill_power : ℚ
deriving DecidableEq, Repr

/-- Embeds `derive_from_attributes` (formulas/attribute_derivation.py lines
19-43). -/
def derive_from_attributes (str_ dex int_ vit k : ℚ) : DerivedFromAttributes :=
  ⟨1 * str_, (5/100) * dex, 100 * int_, 1 * int_, 50 * vit,
   int_ * k * (5125/1000000000)⟩

/-- Embeds `UnitBuild` (model/unit.py lines 17-29); the gear reference is
carried as its modifier lines (`Gear.all_mods`). -/
structure UnitBuild10 where
  main_weapon_key : String
  main_weapon_passive_choice : ℤ
  offhand_key : Option String
  offhand_passive_choice : ℤ
  gear_mods : List Mod3
  k : ℤ
deriving DecidableEq, Repr

/-- Embeds `UnitBase` (model/unit.py lines 32-48). -/
structure UnitBase10 where
  level : ℤ
  str_ : ℚ
  dex : ℚ
  int_ : ℚ
  vit : ℚ
  crit_chance : ℚ
  crit_damage : ℚ
  accuracy : ℚ
  evasion : ℚ
  skill_evasion : ℚ
deriving DecidableEq, Repr

/-- Embeds `UnitStats` (model/unit.py lines 51-69). -/
structure UnitStats10 where
  hp_max : ℚ
  mp_max : ℚ
  attack : ℚ
  armour : ℚ
  mr : ℚ
  mhr : ℚ
  crit_chance : ℚ
  crit_damage : ℚ
  accuracy : ℚ
  evasion : ℚ
  skill_evasion : ℚ
  ap_gain : ℚ
deriving DecidableEq, Repr

/-- Embeds `Unit` (model/unit.py lines 72-91) with the fields
`recompute_stats` touches. -/
structure Unit10 where
  uid : String
  team : String
  slot : ℤ
  base : UnitBase10
  build : UnitBuild10
  stats : Option UnitStats10
  hp : ℚ
  mp : ℚ
  ap : ℚ
deriving DecidableEq, Repr

/-- The keyword parameters `weapons.build_weapon_package` accepts
(data/weapons.py line 383): it is declared `(*, weapon_key,
passive_choice)`. -/
def build_weapon_package_keywords : List String :=
  ["weapon_key", "passive_choice"]

/-- The keywords `Unit._collect_mods` passes to `build_weapon_package`
(model/unit.py lines 110-114): weapon_key, passive_choice and k. -/
def collect_mods_weapon_call_keywords : List String :=
  ["weapon_key", "passive_choice", "k"]

/-- Embeds `Unit._collect_mods` (model/unit.py lines 97-125): gear modifier
lines first, then the weapon package call. That call passes the keyword
`k`, which `build_weapon_package` does not accept, so Python raises
TypeError before the package body runs (the branch below the keyword
check is therefore unreachable and carries only the gear lines). -/
def collect_mods (u : Unit10) : Except PyError (List Mod3) :=
  let mods := u.build.gear_mods
  if collect_mods_weapon_call_keywords.all
      (fun kw => build_weapon_package_keywords.contains kw) then
    .ok mods
  else
    .error .typeError

/-- Embeds `Unit.recompute_stats` (model/unit.py lines 127-184): derive the
attribute bases, gather the modifier lines, evaluate each final stat, and
store the snapshot, initializing HP and MP to the computed maxima only
when they are non-positive. -/
def recompute_stats (u : Unit10) : Except PyError (Unit10 × UnitStats10) := do
  let k : ℚ := (u.build.k : ℤ)
  let d := derive_from_attributes u.base.str_ u.base.dex u.base.int_ u.base.vit k
  let mods ← collect_mods u
  let hp_max := evaluate_stat "hp" d.hp_base mods (some 1) none
  let mp_max := evaluate_stat "mp" d.mp_base mods (some 0) none
  let attack := evaluate_stat "attack" d.attack_base mods (some 0) none
  let armour := evaluate_stat "armour" 0 mods (some 0) none
  let mr := evaluate_stat "mr" d.mr_base mods (some 0) none
  let mhr := evaluate_stat "mhr" d.mhr_base mods (some 0) none
  let crit_chance := evaluate_stat "crit_chance" u.base.crit_chance mods (some 0) none
  let crit_damage := evaluate_stat "crit_damage" u.base.crit_damage mods (some 0) none
  let accuracy := evaluate_stat "accuracy" u.base.accuracy mods (some 0) none
  let evasion := evaluate_stat "evasion" u.base.evasion mods (some 0) none
  let skill_evasion := evaluate_stat "skill_evasion" u.base.skill_evasion mods (some 0) none
  let ap_gain := compute_ap_gain mods 100
  let st : UnitStats10 := ⟨hp_max, mp_max, attack, armour, mr, mhr, crit_chance,
    crit_damage, accuracy, evasion, skill_evasion, ap_gain⟩
  let u1 := { u with
      stats := some st,
      hp := if u.hp ≤ 0 then hp_max else u.hp,
      mp := if u.mp ≤ 0 then mp_max else u.mp }
  return (u1, st)

/-- C10: for every unit, `recompute_stats` raises TypeError — the
`_collect_mods` call passes the keyword `k` to `build_weapon_package`,
whose signature does not accept it — so no snapshot is ever stored and
current HP/MP are never initialized. -/
theorem c10_recompute_stats_raises (u : Unit10) :
    recompute_stats u = .error .typeError := by
  rfl

/-- Witness for C10 at a concrete unit with a sword build and zero
resources. -/
theorem c10_recompute_stats_raises_witness :
    recompute_stats
      ⟨"A-1", "A", 1, ⟨10, 5, 5, 5, 5, 5, 150, 100, 0, 0⟩,
        ⟨"sword", 0, none, 0, [], 4000⟩, none, 0, 0, 0⟩
      = .error .typeError :=
  c10_recompute_stats_raises
    ⟨"A-1", "A", 1, ⟨10, 5, 5, 5, 5, 5, 150, 100, 0, 0⟩,
      ⟨"sword", 0, none, 0, [], 4000⟩, none, 0, 0, 0⟩

end Atlantica
